import Mathlib

/- Verification of the cocos2d-x network Downloader
   (src/cocos/network/CCDownloader.h).

   The header declares the public interface, the error taxonomy, the stream
   data record and the three callback slots; the setters and getters for the
   callback slots are defined inline in the header.  The implementation file
   (CCDownloader.cpp) is not part of src/, so the behavioral definitions
   below that concern transfer execution, batch coordination, resuming and
   error dispatch are modelled from the spec, each marked with a doc comment
   beginning with the words Modelled from the spec. -/

namespace cocos2d
namespace network
namespace Downloader

/-- Error codes of the download process, from CCDownloader.h lines 66-117
(enum class ErrorCode, ten enumerators in source order). -/
inductive ErrorCode where
  | CREATE_FILE
  | NETWORK
  | NO_NEW_VERSION
  | UNCOMPRESS
  | CURL_UNINIT
  | CURL_MULTI_ERROR
  | CURL_EASY_ERROR
  | INVALID_URL
  | INVALID_STORAGE_PATH
  | PREPARE_HEADER_ERROR
deriving DecidableEq, Repr

/-- The ten error codes in the order they are declared in the header. -/
def allErrorCodes : List ErrorCode :=
  [ErrorCode.CREATE_FILE, ErrorCode.NETWORK, ErrorCode.NO_NEW_VERSION,
   ErrorCode.UNCOMPRESS, ErrorCode.CURL_UNINIT, ErrorCode.CURL_MULTI_ERROR,
   ErrorCode.CURL_EASY_ERROR, ErrorCode.INVALID_URL,
   ErrorCode.INVALID_STORAGE_PATH, ErrorCode.PREPARE_HEADER_ERROR]

/-- The error structure, from CCDownloader.h lines 122-148 (struct Error).
The two curl codes are C ints, embedded as Int. -/
structure Error where
  code : ErrorCode
  curlm_code : Int
  curle_code : Int
  message : String
  customId : String
  url : String
deriving DecidableEq, Repr

/-- The streaming data structure, from CCDownloader.h lines 153-167
(struct StreamData).  The C longs offset and total are nonnegative byte
counts (the spec data model states integer >= 0), embedded as Nat; the
caller-supplied byte buffer is embedded as a list of bytes whose length is
the buffer capacity, and total holds that capacity. -/
structure StreamData where
  offset : Nat
  total : Nat
  buffer : List Nat
deriving DecidableEq, Repr

/-- The callback-slot state of a Downloader instance: the three private
fields _onError, _onProgress, _onSuccess of CCDownloader.h lines 347-349.
The slot contents (std::function values) are embedded abstractly as
elements of arbitrary types E, P, S. -/
structure State (E P S : Type) where
  _onError : E
  _onProgress : P
  _onSuccess : S

/-- setErrorCallback, CCDownloader.h line 193: assigns the argument to the
_onError slot. -/
def setErrorCallback {E P S : Type} (callback : E) (d : State E P S) : State E P S :=
  { d with _onError := callback }

/-- setProgressCallback, CCDownloader.h line 200: assigns the argument to
the _onProgress slot. -/
def setProgressCallback {E P S : Type} (callback : P) (d : State E P S) : State E P S :=
  { d with _onProgress := callback }

/-- setSuccessCallback, CCDownloader.h line 207: assigns the argument to
the _onSuccess slot. -/
def setSuccessCallback {E P S : Type} (callback : S) (d : State E P S) : State E P S :=
  { d with _onSuccess := callback }

/-- getErrorCallback, CCDownloader.h line 214: returns the _onError slot. -/
def getErrorCallback {E P S : Type} (d : State E P S) : E :=
  d._onError

/-- getProgressCallback, CCDownloader.h line 221: returns the _onProgress
slot. -/
def getProgressCallback {E P S : Type} (d : State E P S) : P :=
  d._onProgress

/-- getSuccessCallback, CCDownloader.h line 228: returns the _onSuccess
slot. -/
def getSuccessCallback {E P S : Type} (d : State E P S) : S :=
  d._onSuccess

/-- Modelled from the spec: a callback invocation observed by the caller.
CCDownloader.cpp is not in src/; per spec section 4.1 the three registered
callback slots are the only notification channel, so a run of an operation
is embedded as the list of callback invocations it delivers, in delivery
order.  Arguments follow the typedefs at CCDownloader.h lines 170-172; the
double byte counts of ProgressCallback are embedded as Nat. -/
inductive Event where
  | errorEv (e : Error)
  | progressEv (totalToDownload : Nat) (nowDownloaded : Nat) (url : String) (customId : String)
  | successEv (url : String) (storagePath : String) (customId : String)
deriving DecidableEq, Repr

/-- Whether an event is a SuccessCallback invocation. -/
def Event.isSuccess : Event → Bool
  | .successEv _ _ _ => true
  | _ => false

/-- Whether an event is an ErrorCallback invocation. -/
def Event.isError : Event → Bool
  | .errorEv _ => true
  | _ => false

/-- Number of SuccessCallback invocations in a delivery trace. -/
def countSuccess (evs : List Event) : Nat :=
  (evs.filter Event.isSuccess).length

/-- Number of ErrorCallback invocations in a delivery trace. -/
def countError (evs : List Event) : Nat :=
  (evs.filter Event.isError).length

/-- The nowDownloaded values of the ProgressCallback invocations of a
trace, in delivery order. -/
def progressValues (evs : List Event) : List Nat :=
  evs.filterMap fun ev =>
    match ev with
    | .progressEv _ n _ _ => some n
    | _ => none

/-- Modelled from the spec: Downloader::notifyError (declared at
CCDownloader.h line 328, body not in src/).  Spec section 4.6: every
failure is normalized into one Error record and dispatched through the
single registered ErrorCallback. -/
def notifyError (code : ErrorCode) (msg : String) (customId : String)
    (curle_code : Int) (curlm_code : Int) (url : String) : Event :=
  Event.errorEv
    { code := code, curlm_code := curlm_code, curle_code := curle_code,
      message := msg, customId := customId, url := url }

/-- Modelled from the spec: Downloader::bufferWriteFunc (declared at
CCDownloader.h line 335, body not in src/).  Spec section 4.2: the
per-chunk write callback copies at most total - offset bytes into the
buffer at offset and advances offset; writing past the capacity is a fatal
Network-class error for the unit, with no out-of-bounds write performed. -/
def bufferWriteFunc (sd : StreamData) (chunk : List Nat) : Except Error StreamData :=
  if sd.offset + chunk.length ≤ sd.total then
    Except.ok
      { offset := sd.offset + chunk.length, total := sd.total,
        buffer := sd.buffer.take sd.offset ++ chunk
          ++ sd.buffer.drop (sd.offset + chunk.length) }
  else
    Except.error
      { code := ErrorCode.NETWORK, curlm_code := 0, curle_code := 0,
        message := "stream exceeds buffer capacity", customId := "", url := "" }

/-- Modelled from the spec: the engine delivering a buffer-target stream as
a sequence of per-chunk writes, stopping at the first write failure. -/
def writeChunks (sd : StreamData) : List (List Nat) → Except Error StreamData
  | [] => Except.ok sd
  | c :: cs =>
    match bufferWriteFunc sd c with
    | Except.ok sd' => writeChunks sd' cs
    | Except.error e => Except.error e

/-- Modelled from the spec: the engine-side happenings of one buffer-target
transfer attempt: the chunks delivered in order, then either transport
success (curlFail = none) or a transport failure carrying the engine-native
curle code and message. -/
structure BufferEngineRun where
  chunks : List (List Nat)
  curlFail : Option (Int × String)
deriving DecidableEq, Repr

/-- Modelled from the spec: Downloader::downloadToBuffer (declared at
CCDownloader.h line 324, body not in src/).  Spec section 4.2: streams the
chunks into the caller buffer; on stream completion fires SuccessCallback
with (url, empty, customId); an oversized stream or an engine failure
fires ErrorCallback once with the failure classified (capacity overflow as
Network, transport fault as CURL_EASY_ERROR with the engine code). -/
def downloadToBuffer (srcUrl : String) (customId : String) (size : Nat)
    (run : BufferEngineRun) : List Event :=
  let sd : StreamData :=
    { offset := 0, total := size, buffer := List.replicate size 0 }
  match writeChunks sd run.chunks with
  | Except.error e =>
    [Event.errorEv { e with customId := customId, url := srcUrl }]
  | Except.ok _ =>
    match run.curlFail with
    | some (curle, msg) =>
      [notifyError ErrorCode.CURL_EASY_ERROR msg customId curle 0 srcUrl]
    | none => [Event.successEv srcUrl "" customId]

/-- Outcome of one public synchronous operation: the callback invocations
delivered before the call returns (the call itself returns void), and how
many transfer attempts were handed to the engine. -/
structure RunOut where
  events : List Event
  engineAttempts : Nat
deriving DecidableEq, Repr

/-- Modelled from the spec: Downloader::downloadToBufferSync
(CCDownloader.h line 254, body not in src/).  Spec section 4.2: validates
that the url is non-empty and well-formed (fails INVALID_URL otherwise)
and that size is positive (fails INVALID_STORAGE_PATH otherwise), before
any network activity; otherwise dispatches one transfer to the engine.
Well-formedness of a non-empty url is the parameter wf. -/
def downloadToBufferSyncRun (wf : String → Bool) (srcUrl : String) (size : Int)
    (customId : String) (run : BufferEngineRun) : RunOut :=
  if srcUrl.isEmpty || !wf srcUrl then
    { events := [notifyError ErrorCode.INVALID_URL "invalid url" customId 0 0 srcUrl],
      engineAttempts := 0 }
  else if size ≤ 0 then
    { events := [notifyError ErrorCode.INVALID_STORAGE_PATH "invalid buffer size" customId 0 0 srcUrl],
      engineAttempts := 0 }
  else
    { events := downloadToBuffer srcUrl customId size.toNat run,
      engineAttempts := 1 }

/-- Modelled from the spec: the engine-side happenings of one file-target
transfer attempt: the header probe's resumability answer, the
engine-reported total still to download, the cumulative progress ticks of
this attempt in delivery order, and the transport outcome. -/
structure FileEngineRun where
  acceptRanges : Bool
  totalToDownload : Nat
  ticks : List Nat
  curlFail : Option (Int × String)
deriving DecidableEq, Repr

/-- Modelled from the spec: the resume decision of Downloader::downloadToFP
(CCDownloader.h line 325, body not in src/).  Spec section 4.3: if resume
support is enabled, a partial file of length L exists, and the header
probe reports the resource resumable, the transfer resumes from L;
otherwise it restarts from zero. -/
def resumeStart (sr : Bool) (localFileLen : Option Nat) (acceptRanges : Bool) : Nat :=
  match localFileLen with
  | some len => if sr && acceptRanges then len else 0
  | none => 0

/-- Modelled from the spec: whether downloadToFP discards (truncates) a
pre-existing partial file: exactly when one exists and the transfer is not
resumed from it. -/
def discardsLocal (sr : Bool) (localFileLen : Option Nat) (acceptRanges : Bool) : Bool :=
  match localFileLen with
  | some _ => !(sr && acceptRanges)
  | none => false

/-- Modelled from the spec: the terminal callback of a file-target attempt:
reportDownloadFinished (CCDownloader.h line 341) fires SuccessCallback with
(url, storagePath, customId) on completion; a transport fault is dispatched
through notifyError as CURL_EASY_ERROR with the engine code. -/
def fpTerminal (srcUrl : String) (storagePath : String) (customId : String) :
    Option (Int × String) → Event
  | some (curle, msg) => notifyError ErrorCode.CURL_EASY_ERROR msg customId curle 0 srcUrl
  | none => Event.successEv srcUrl storagePath customId

/-- Outcome of one file-target transfer attempt: the delivered callbacks,
the number of engine attempts, the byte offset the attempt started from,
and whether a stale partial file was discarded. -/
structure FileRunOut where
  events : List Event
  engineAttempts : Nat
  startOffset : Nat
  discardedLocal : Bool
deriving DecidableEq, Repr

/-- Modelled from the spec: Downloader::downloadToFP (CCDownloader.h line
325, body not in src/).  Spec sections 4.3 and 4.4: decides the resume
offset from the _supportResuming flag, the pre-existing partial file
length and the header probe; each engine progress tick is reported through
reportProgressInProgress with the resume offset added to both byte counts;
exactly one terminal callback follows. -/
def downloadToFP (srcUrl : String) (customId : String) (storagePath : String)
    (sr : Bool) (localFileLen : Option Nat) (run : FileEngineRun) : FileRunOut :=
  { events :=
      run.ticks.map (fun n =>
        Event.progressEv (resumeStart sr localFileLen run.acceptRanges + run.totalToDownload)
          (resumeStart sr localFileLen run.acceptRanges + n) srcUrl customId)
      ++ [fpTerminal srcUrl storagePath customId run.curlFail],
    engineAttempts := 1,
    startOffset := resumeStart sr localFileLen run.acceptRanges,
    discardedLocal := discardsLocal sr localFileLen run.acceptRanges }

/-- Modelled from the spec: Downloader::downloadSync (CCDownloader.h line
276, body not in src/).  Spec section 4.3: validates that the storage path
is writable (the parameter pw), failing INVALID_STORAGE_PATH before any
network activity; otherwise runs downloadToFP. -/
def downloadSyncRun (pw : String → Bool) (srcUrl : String) (storagePath : String)
    (customId : String) (sr : Bool) (localFileLen : Option Nat)
    (run : FileEngineRun) : FileRunOut :=
  if !pw storagePath then
    { events := [notifyError ErrorCode.INVALID_STORAGE_PATH "invalid storage path" customId 0 0 srcUrl],
      engineAttempts := 0, startOffset := 0, discardedLocal := false }
  else
    downloadToFP srcUrl customId storagePath sr localFileLen run

/-- Modelled from the spec: one download unit of a batch (DownloadUnit of
CCDownloaderImpl.h, which is not in src/; spec section 3 TransferUnit):
source url, local storage path, caller correlation key. -/
structure DownloadUnit where
  srcUrl : String
  storagePath : String
  customId : String
deriving DecidableEq, Repr

/-- Modelled from the spec: one member of a batch download together with
its environment: the pre-existing partial file length at its storage path
and the engine-side happenings of its transfer. -/
structure BatchMember where
  unit : DownloadUnit
  localFileLen : Option Nat
  engine : FileEngineRun
deriving DecidableEq, Repr

/-- Modelled from the spec: the per-member file-transfer runs of a batch,
each following the single-file semantics (spec section 4.4), in arrival
order of their terminal states. -/
def batchMemberRuns (pw : String → Bool) (sr : Bool)
    (members : List BatchMember) : List FileRunOut :=
  members.map fun m =>
    downloadSyncRun pw m.unit.srcUrl m.unit.storagePath m.unit.customId sr
      m.localFileLen m.engine

/-- First Error carried by an ErrorCallback invocation of a trace, if any. -/
def firstErrorOf (evs : List Event) : Option Error :=
  evs.findSome? fun ev =>
    match ev with
    | Event.errorEv e => some e
    | _ => none

/-- Modelled from the spec: the terminal outcome of each batch member in
arrival order: none for a member that succeeded, the member's Error
otherwise. -/
def batchOutcomes (pw : String → Bool) (sr : Bool)
    (members : List BatchMember) : List (Option Error) :=
  (batchMemberRuns pw sr members).map fun o => firstErrorOf o.events

/-- Modelled from the spec: the state of the batch coordinator for one
batchId: how many members have not yet reached a terminal state, and the
first per-member error encountered, if any (spec section 4.4,
first-failure-wins). -/
structure BatchState where
  remaining : Nat
  firstError : Option Error
deriving DecidableEq, Repr

/-- Modelled from the spec: the coordinator's first-failure-wins
accumulation: a later failure never replaces an already recorded one. -/
def mergeFirst (fe : Option Error) (outcome : Option Error) : Option Error :=
  match fe with
  | some e => some e
  | none => outcome

/-- Modelled from the spec: the coordinator processing one member's
terminal outcome: the member is no longer pending, and its error is
retained only when it is the first one encountered. -/
def batchStep (st : BatchState) (outcome : Option Error) : BatchState :=
  { remaining := st.remaining - 1,
    firstError := mergeFirst st.firstError outcome }

/-- Modelled from the spec: the single batch-level terminal notification
for a batchId: success when no member failed, otherwise an error carrying
the first per-member error with batchId as its customId. -/
def batchEventOf (batchId : String) : Option Error → Event
  | none => Event.successEv "" "" batchId
  | some e => Event.errorEv { e with customId := batchId }

/-- Modelled from the spec: the coordinator consuming member outcomes in
arrival order, emitting the batch-level notification exactly when the last
pending member reaches a terminal state. -/
def batchRunAux (batchId : String) (st : BatchState) :
    List (Option Error) → List Event
  | [] => []
  | o :: rest =>
    let st' := batchStep st o
    if st'.remaining = 0 then
      batchEventOf batchId st'.firstError :: batchRunAux batchId st' rest
    else
      batchRunAux batchId st' rest

/-- Modelled from the spec: the batch-level notifications emitted while a
batch of n members sees the given member outcomes arrive. -/
def batchNotifications (batchId : String) (n : Nat)
    (outcomes : List (Option Error)) : List Event :=
  batchRunAux batchId { remaining := n, firstError := none } outcomes

/-- Outcome of a batch download: the per-unit callback invocations and the
batch-level ones. -/
structure BatchRunOut where
  unitEvents : List Event
  batchEvents : List Event
deriving DecidableEq, Repr

/-- Modelled from the spec: Downloader::batchDownloadSync /
groupBatchDownload (CCDownloader.h lines 294 and 326, bodies not in src/).
Spec section 4.4: every member runs the single-file semantics and reports
individually; the coordinator additionally emits the batch-level
notification once every member has reached a terminal state. -/
def batchDownloadSyncRun (pw : String → Bool) (batchId : String) (sr : Bool)
    (members : List BatchMember) : BatchRunOut :=
  { unitEvents := ((batchMemberRuns pw sr members).map FileRunOut.events).flatten,
    batchEvents := batchNotifications batchId members.length (batchOutcomes pw sr members) }

/-- Modelled from the spec: the coordinator's record for one member of an
active batch: bytes downloaded so far, and the member's total size when
already known (none while unknown). -/
structure UnitProgress where
  downloaded : Nat
  totalKnown : Option Nat
deriving DecidableEq, Repr

/-- Modelled from the spec: Downloader::batchDownloadProgressFunc
(CCDownloader.h line 334, body not in src/).  Spec section 4.4: the
batch-level progress it reports is the accumulated pair
(sum of bytesDownloaded, sum of the already-known bytesTotal); a member
whose total is still unknown adds nothing to the second component. -/
def batchAggregate : List UnitProgress → Nat × Nat
  | [] => (0, 0)
  | u :: rest =>
    let acc := batchAggregate rest
    (u.downloaded + acc.1,
      match u.totalKnown with
      | some t => t + acc.2
      | none => acc.2)

/-- Whether a delivery trace contains a SuccessCallback invocation. -/
def hasSuccessB (evs : List Event) : Bool :=
  evs.any Event.isSuccess

/-- Whether a delivery trace contains an ErrorCallback invocation. -/
def hasErrorB (evs : List Event) : Bool :=
  evs.any Event.isError

/-- A concrete successful engine run used to instantiate theorems: the
resource is resumable, 4 bytes remain, two progress ticks arrive, the
transport succeeds. -/
def sampleEngineOk : FileEngineRun :=
  { acceptRanges := true, totalToDownload := 4, ticks := [0, 4], curlFail := none }

/-- A concrete download unit used to instantiate theorems. -/
def sampleUnit : DownloadUnit :=
  { srcUrl := "u", storagePath := "p", customId := "f1" }

/-- A concrete batch member used to instantiate theorems. -/
def sampleMember : BatchMember :=
  { unit := sampleUnit, localFileLen := none, engine := sampleEngineOk }

/-- Claim C9: for each of the three callback slots, registering a callback
replaces the previously registered one rather than composing with it:
after setErrorCallback f then setErrorCallback g the stored error callback
is g, likewise for the progress and success slots, and each setter
modifies only its own slot. -/
theorem claim_C9 {E P S : Type} (d : State E P S) (f g : E) (f2 g2 : P) (f3 g3 : S) :
    getErrorCallback (setErrorCallback g (setErrorCallback f d)) = g ∧
    getProgressCallback (setProgressCallback g2 (setProgressCallback f2 d)) = g2 ∧
    getSuccessCallback (setSuccessCallback g3 (setSuccessCallback f3 d)) = g3 ∧
    getProgressCallback (setErrorCallback f d) = getProgressCallback d ∧
    getSuccessCallback (setErrorCallback f d) = getSuccessCallback d ∧
    getErrorCallback (setProgressCallback f2 d) = getErrorCallback d ∧
    getSuccessCallback (setProgressCallback f2 d) = getSuccessCallback d ∧
    getErrorCallback (setSuccessCallback f3 d) = getErrorCallback d ∧
    getProgressCallback (setSuccessCallback f3 d) = getProgressCallback d :=
  ⟨rfl, rfl, rfl, rfl, rfl, rfl, rfl, rfl, rfl⟩

/-- Claim C10: ErrorCode is a closed enumeration of exactly ten pairwise
distinct codes, and every Error carries one of them. -/
theorem claim_C10 :
    allErrorCodes.length = 10 ∧ allErrorCodes.Nodup ∧
    (∀ c : ErrorCode, c ∈ allErrorCodes) ∧
    (∀ e : Error, e.code ∈ allErrorCodes) := by
  refine ⟨rfl, by decide, ?_, ?_⟩
  · intro c
    cases c <;> simp [allErrorCodes]
  · intro e
    cases h : e.code <;> simp [allErrorCodes]

/-- Claim C3: the coordinator's batch-level aggregate progress is the pair
whose first component sums bytesDownloaded over all members and whose
second sums bytesTotal over only the members whose total is known; a
member with unknown total adds its downloaded bytes to the first component
and nothing at all to the second. -/
theorem claim_C3 (us : List UnitProgress) :
    (batchAggregate us).1 = (us.map UnitProgress.downloaded).sum ∧
    (batchAggregate us).2 = (us.filterMap UnitProgress.totalKnown).sum ∧
    (∀ u : UnitProgress, u.totalKnown = none →
      batchAggregate (u :: us) =
        (u.downloaded + (batchAggregate us).1, (batchAggregate us).2)) := by
  refine ⟨?_, ?_, ?_⟩
  · induction us with
    | nil => rfl
    | cons u rest ih => simp [batchAggregate, ih]
  · induction us with
    | nil => rfl
    | cons u rest ih =>
      cases h : u.totalKnown with
      | none => simp [batchAggregate, h, List.filterMap_cons, ih]
      | some t => simp [batchAggregate, h, List.filterMap_cons, ih]
  · intro u hu
    simp [batchAggregate, hu]

/-- Witness for claim C3 at a two-member store, the first member's total
unknown. -/
theorem claim_C3_witness :
    batchAggregate ({ downloaded := 7, totalKnown := none } ::
        [{ downloaded := 3, totalKnown := some 10 }]) =
      (7 + (batchAggregate [{ downloaded := 3, totalKnown := some 10 }]).1,
        (batchAggregate [{ downloaded := 3, totalKnown := some 10 }]).2) :=
  (claim_C3 [{ downloaded := 3, totalKnown := some 10 }]).2.2
    { downloaded := 7, totalKnown := none } rfl

theorem bufferWriteFunc_ok (sd sd' : StreamData) (chunk : List Nat)
    (h : bufferWriteFunc sd chunk = Except.ok sd') :
    sd.offset + chunk.length ≤ sd.total ∧
    sd'.offset = sd.offset + chunk.length ∧ sd'.total = sd.total ∧
    sd'.buffer = sd.buffer.take sd.offset ++ chunk
      ++ sd.buffer.drop (sd.offset + chunk.length) := by
  unfold bufferWriteFunc at h
  split at h
  · next hle =>
    cases h
    exact ⟨hle, rfl, rfl, rfl⟩
  · cases h

theorem bufferWriteFunc_error (sd : StreamData) (chunk : List Nat) (e : Error)
    (h : bufferWriteFunc sd chunk = Except.error e) :
    sd.total < sd.offset + chunk.length ∧ e.code = ErrorCode.NETWORK := by
  unfold bufferWriteFunc at h
  split at h
  · cases h
  · next hgt =>
    cases h
    exact ⟨by omega, rfl⟩

theorem writeChunks_invariant (chunks : List (List Nat)) :
    ∀ sd sdf : StreamData, writeChunks sd chunks = Except.ok sdf →
      sdf.offset ≤ sd.total ∨ sdf = sd := by
  induction chunks with
  | nil =>
    intro sd sdf h
    cases h
    exact Or.inr rfl
  | cons c cs ih =>
    intro sd sdf h
    unfold writeChunks at h
    cases hw : bufferWriteFunc sd c with
    | error e => rw [hw] at h; cases h
    | ok sd' =>
      rw [hw] at h
      obtain ⟨hle, hoff, htot, _⟩ := bufferWriteFunc_ok sd sd' c hw
      rcases ih sd' sdf h with hb | hb
      · exact Or.inl (by omega)
      · exact Or.inl (by rw [hb]; omega)

/-- Claim C6: the per-chunk buffer write copies at most total - offset
bytes at position offset, keeping the StreamData offset within the buffer
capacity and the buffer length unchanged; a chunk that would exceed the
capacity makes the write fail with a fatal Network-class error and no
out-of-bounds write, and across a whole stream the offset never exceeds
the capacity. -/
theorem claim_C6 (sd : StreamData) (chunk : List Nat)
    (hlen : sd.buffer.length = sd.total) (hoff : sd.offset ≤ sd.total) :
    (∀ sd', bufferWriteFunc sd chunk = Except.ok sd' →
      chunk.length ≤ sd.total - sd.offset ∧
      sd'.offset = sd.offset + chunk.length ∧ sd'.offset ≤ sd.total ∧
      sd'.total = sd.total ∧ sd'.buffer.length = sd.total) ∧
    (∀ e, bufferWriteFunc sd chunk = Except.error e →
      sd.total < sd.offset + chunk.length ∧ e.code = ErrorCode.NETWORK) ∧
    (∀ (chunks : List (List Nat)) (sdf : StreamData),
      writeChunks sd chunks = Except.ok sdf → sdf.offset ≤ sd.total) := by
  refine ⟨?_, ?_, ?_⟩
  · intro sd' h
    obtain ⟨hle, hoff', htot, hbuf⟩ := bufferWriteFunc_ok sd sd' chunk h
    refine ⟨by omega, hoff', by omega, htot, ?_⟩
    rw [hbuf]
    simp [List.length_take, List.length_drop]
    omega
  · intro e h
    exact bufferWriteFunc_error sd chunk e h
  · intro chunks sdf h
    rcases writeChunks_invariant chunks sd sdf h with hb | hb
    · exact hb
    · rw [hb]; exact hoff

/-- Witness for claim C6: a 2-byte chunk written at offset 0 of a 3-byte
buffer succeeds in bounds. -/
theorem claim_C6_witness :
    List.length [1, 2] ≤ (StreamData.mk 0 3 [0, 0, 0]).total - (StreamData.mk 0 3 [0, 0, 0]).offset ∧
    (StreamData.mk 2 3 [1, 2, 0]).offset = (StreamData.mk 0 3 [0, 0, 0]).offset + List.length [1, 2] ∧
    (StreamData.mk 2 3 [1, 2, 0]).offset ≤ (StreamData.mk 0 3 [0, 0, 0]).total ∧
    (StreamData.mk 2 3 [1, 2, 0]).total = (StreamData.mk 0 3 [0, 0, 0]).total ∧
    (StreamData.mk 2 3 [1, 2, 0]).buffer.length = (StreamData.mk 0 3 [0, 0, 0]).total :=
  (claim_C6 (StreamData.mk 0 3 [0, 0, 0]) [1, 2] rfl (by decide)).1
    (StreamData.mk 2 3 [1, 2, 0]) rfl

theorem filter_isSuccess_progress (T v : Nat → Nat) (u c : String) (ts : List Nat) :
    List.filter Event.isSuccess (ts.map fun n => Event.progressEv (T n) (v n) u c) = [] := by
  induction ts with
  | nil => rfl
  | cons t ts _ => simp [List.filter_cons, Event.isSuccess]

theorem filter_isError_progress (T v : Nat → Nat) (u c : String) (ts : List Nat) :
    List.filter Event.isError (ts.map fun n => Event.progressEv (T n) (v n) u c) = [] := by
  induction ts with
  | nil => rfl
  | cons t ts _ => simp [List.filter_cons, Event.isError]

theorem terminal_single (u p c : String) (cf : Option (Int × String)) :
    countSuccess [fpTerminal u p c cf] + countError [fpTerminal u p c cf] = 1 := by
  cases cf with
  | none => rfl
  | some pr =>
    obtain ⟨a, b⟩ := pr
    rfl

theorem terminal_downloadToBuffer (srcUrl customId : String) (size : Nat)
    (run : BufferEngineRun) :
    countSuccess (downloadToBuffer srcUrl customId size run)
      + countError (downloadToBuffer srcUrl customId size run) = 1 := by
  unfold downloadToBuffer
  cases hw : writeChunks { offset := 0, total := size, buffer := List.replicate size 0 } run.chunks with
  | error e => simp [hw, countSuccess, countError, Event.isSuccess, Event.isError]
  | ok sd =>
    cases hcf : run.curlFail with
    | none => simp [hw, hcf, countSuccess, countError, Event.isSuccess, Event.isError]
    | some pr =>
      obtain ⟨curle, msg⟩ := pr
      simp [hw, hcf, notifyError, countSuccess, countError, Event.isSuccess, Event.isError]

theorem terminal_bufferSync (wf : String → Bool) (srcUrl : String) (size : Int)
    (customId : String) (run : BufferEngineRun) :
    countSuccess (downloadToBufferSyncRun wf srcUrl size customId run).events
      + countError (downloadToBufferSyncRun wf srcUrl size customId run).events = 1 := by
  unfold downloadToBufferSyncRun
  split_ifs with h1 h2
  · simp [notifyError, countSuccess, countError, Event.isSuccess, Event.isError]
  · simp [notifyError, countSuccess, countError, Event.isSuccess, Event.isError]
  · exact terminal_downloadToBuffer srcUrl customId size.toNat run

theorem terminal_downloadToFP (srcUrl customId storagePath : String) (sr : Bool)
    (localFileLen : Option Nat) (run : FileEngineRun) :
    countSuccess (downloadToFP srcUrl customId storagePath sr localFileLen run).events
      + countError (downloadToFP srcUrl customId storagePath sr localFileLen run).events = 1 := by
  unfold downloadToFP
  simp only [countSuccess, countError, List.filter_append,
    filter_isSuccess_progress, filter_isError_progress, List.nil_append]
  exact terminal_single srcUrl storagePath customId run.curlFail

theorem terminal_fileRun (pw : String → Bool) (srcUrl storagePath customId : String)
    (sr : Bool) (localFileLen : Option Nat) (run : FileEngineRun) :
    countSuccess (downloadSyncRun pw srcUrl storagePath customId sr localFileLen run).events
      + countError (downloadSyncRun pw srcUrl storagePath customId sr localFileLen run).events = 1 := by
  unfold downloadSyncRun
  split_ifs with h1
  · simp [notifyError, countSuccess, countError, Event.isSuccess, Event.isError]
  · exact terminal_downloadToFP srcUrl customId storagePath sr localFileLen run

/-- Claim C1: every attempted transfer unit, whether a single buffer
download, a single file download, or a member of a batch, gets exactly one
terminal callback: the number of SuccessCallback invocations plus the
number of ErrorCallback invocations delivered for the unit is exactly one,
never zero and never two. -/
theorem claim_C1 (wf pw : String → Bool) (srcUrl storagePath customId : String)
    (size : Int) (sr : Bool) (localFileLen : Option Nat)
    (brun : BufferEngineRun) (frun : FileEngineRun) (members : List BatchMember) :
    countSuccess (downloadToBufferSyncRun wf srcUrl size customId brun).events
      + countError (downloadToBufferSyncRun wf srcUrl size customId brun).events = 1 ∧
    countSuccess (downloadSyncRun pw srcUrl storagePath customId sr localFileLen frun).events
      + countError (downloadSyncRun pw srcUrl storagePath customId sr localFileLen frun).events = 1 ∧
    (∀ o ∈ batchMemberRuns pw sr members,
      countSuccess o.events + countError o.events = 1) := by
  refine ⟨terminal_bufferSync wf srcUrl size customId brun,
    terminal_fileRun pw srcUrl storagePath customId sr localFileLen frun, ?_⟩
  intro o ho
  rw [batchMemberRuns] at ho
  obtain ⟨m, _, rfl⟩ := List.mem_map.mp ho
  exact terminal_fileRun pw m.unit.srcUrl m.unit.storagePath m.unit.customId sr
    m.localFileLen m.engine

/-- Witness for claim C1 at a concrete one-member batch whose member
succeeds after two progress ticks. -/
theorem claim_C1_witness :
    countSuccess (downloadSyncRun (fun _ => true) "u" "p" "f1" false none sampleEngineOk).events
      + countError (downloadSyncRun (fun _ => true) "u" "p" "f1" false none sampleEngineOk).events = 1 :=
  (claim_C1 (fun _ => true) (fun _ => true) "u" "p" "f1" 1 false none
      { chunks := [], curlFail := none } sampleEngineOk [sampleMember]).2.2
    (downloadSyncRun (fun _ => true) "u" "p" "f1" false none sampleEngineOk)
    (by simp [batchMemberRuns, sampleMember, sampleUnit])

/-- Claim C7: a buffer download with an empty or malformed url fails with
the INVALID_URL code, a non-positive size fails with the
INVALID_STORAGE_PATH code; both caller-input failures are reported with
zero engine attempts, and no run ever hands more than one attempt to the
engine. -/
theorem claim_C7 (wf : String → Bool) (srcUrl : String) (size : Int)
    (customId : String) (run : BufferEngineRun) :
    ((srcUrl.isEmpty || !wf srcUrl) = true →
      (downloadToBufferSyncRun wf srcUrl size customId run).events =
        [notifyError ErrorCode.INVALID_URL "invalid url" customId 0 0 srcUrl] ∧
      (downloadToBufferSyncRun wf srcUrl size customId run).engineAttempts = 0) ∧
    ((srcUrl.isEmpty || !wf srcUrl) = false → size ≤ 0 →
      (downloadToBufferSyncRun wf srcUrl size customId run).events =
        [notifyError ErrorCode.INVALID_STORAGE_PATH "invalid buffer size" customId 0 0 srcUrl] ∧
      (downloadToBufferSyncRun wf srcUrl size customId run).engineAttempts = 0) ∧
    (downloadToBufferSyncRun wf srcUrl size customId run).engineAttempts ≤ 1 := by
  refine ⟨?_, ?_, ?_⟩
  · intro h
    simp [downloadToBufferSyncRun, h]
  · intro h hs
    simp [downloadToBufferSyncRun, h, hs]
  · unfold downloadToBufferSyncRun
    split_ifs <;> simp

/-- Witness for claim C7: the empty url fails INVALID_URL with no engine
attempt. -/
theorem claim_C7_witness :
    (downloadToBufferSyncRun (fun _ => true) "" 5 "b1" { chunks := [], curlFail := none }).events =
      [notifyError ErrorCode.INVALID_URL "invalid url" "b1" 0 0 ""] ∧
    (downloadToBufferSyncRun (fun _ => true) "" 5 "b1" { chunks := [], curlFail := none }).engineAttempts = 0 :=
  (claim_C7 (fun _ => true) "" 5 "b1" { chunks := [], curlFail := none }).1 rfl

theorem any_iff_count_pos (p : Event → Bool) (evs : List Event) :
    evs.any p = true ↔ 0 < (evs.filter p).length := by
  induction evs with
  | nil => simp
  | cons a evs ih =>
    by_cases hp : p a = true
    · simp [List.filter_cons, hp]
    · simp only [List.any_cons, List.filter_cons, hp, Bool.false_or, if_neg]
      simpa [hp] using ih

theorem hasError_of_no_success (evs : List Event)
    (h : countSuccess evs + countError evs = 1)
    (hs : hasSuccessB evs = false) : hasErrorB evs = true := by
  have h1 : ¬ 0 < (evs.filter Event.isSuccess).length := by
    intro hpos
    have := (any_iff_count_pos Event.isSuccess evs).mpr hpos
    rw [hasSuccessB, this] at hs
    cases hs
  have h2 : 0 < (evs.filter Event.isError).length := by
    unfold countSuccess countError at h
    omega
  show evs.any Event.isError = true
  exact (any_iff_count_pos Event.isError evs).mpr h2

/-- Claim C8: the synchronous operations return no outcome value; a unit
that does not end in a SuccessCallback has its failure delivered through
the ErrorCallback within the callback trace the call produces before
returning, for the buffer, file and batch synchronous paths alike. -/
theorem claim_C8 (wf pw : String → Bool) (srcUrl storagePath customId : String)
    (size : Int) (sr : Bool) (localFileLen : Option Nat)
    (brun : BufferEngineRun) (frun : FileEngineRun) (members : List BatchMember) :
    (hasSuccessB (downloadToBufferSyncRun wf srcUrl size customId brun).events = false →
      hasErrorB (downloadToBufferSyncRun wf srcUrl size customId brun).events = true) ∧
    (hasSuccessB (downloadSyncRun pw srcUrl storagePath customId sr localFileLen frun).events = false →
      hasErrorB (downloadSyncRun pw srcUrl storagePath customId sr localFileLen frun).events = true) ∧
    (∀ o ∈ batchMemberRuns pw sr members,
      hasSuccessB o.events = false → hasErrorB o.events = true) := by
  refine ⟨fun hs => hasError_of_no_success _ (terminal_bufferSync wf srcUrl size customId brun) hs,
    fun hs => hasError_of_no_success _
      (terminal_fileRun pw srcUrl storagePath customId sr localFileLen frun) hs, ?_⟩
  intro o ho hs
  rw [batchMemberRuns] at ho
  obtain ⟨m, _, rfl⟩ := List.mem_map.mp ho
  exact hasError_of_no_success _
    (terminal_fileRun pw m.unit.srcUrl m.unit.storagePath m.unit.customId sr
      m.localFileLen m.engine) hs

/-- Witness for claim C8: a buffer download rejected for its empty url
delivers its error through the callback trace of the synchronous call. -/
theorem claim_C8_witness :
    hasErrorB (downloadToBufferSyncRun (fun _ => true) "" 5 "b2" { chunks := [], curlFail := none }).events = true :=
  (claim_C8 (fun _ => true) (fun _ => true) "" "p" "b2" 5 false none
      { chunks := [], curlFail := none } sampleEngineOk []).1 rfl

theorem progressValues_append (a b : List Event) :
    progressValues (a ++ b) = progressValues a ++ progressValues b := by
  simp [progressValues, List.filterMap_append]

theorem progressValues_of_map (T v : Nat → Nat) (u c : String) (ts : List Nat) :
    progressValues (ts.map fun n => Event.progressEv (T n) (v n) u c) = ts.map v := by
  induction ts with
  | nil => rfl
  | cons t ts ih =>
    simp only [List.map_cons, progressValues, List.filterMap_cons] at ih ⊢
    rw [ih]

theorem progressValues_terminal (u p c : String) (cf : Option (Int × String)) :
    progressValues [fpTerminal u p c cf] = [] := by
  cases cf with
  | none => rfl
  | some pr =>
    obtain ⟨a, b⟩ := pr
    rfl

theorem progressValues_downloadToFP (srcUrl customId storagePath : String)
    (sr : Bool) (localFileLen : Option Nat) (run : FileEngineRun) :
    progressValues (downloadToFP srcUrl customId storagePath sr localFileLen run).events =
      run.ticks.map fun n => resumeStart sr localFileLen run.acceptRanges + n := by
  unfold downloadToFP
  rw [progressValues_append,
    progressValues_of_map (fun _ => resumeStart sr localFileLen run.acceptRanges + run.totalToDownload)
      (fun n => resumeStart sr localFileLen run.acceptRanges + n) srcUrl customId run.ticks,
    progressValues_terminal]
  simp

/-- Claim C4: within one transfer attempt the reported bytesDownloaded
values are monotonically non-decreasing whenever the engine ticks of the
attempt are, and every reported value is at least the attempt's start
offset, so a resumed attempt never rewinds below the resume offset. -/
theorem claim_C4 (srcUrl customId storagePath : String) (sr : Bool)
    (localFileLen : Option Nat) (run : FileEngineRun)
    (hmono : List.Chain' (fun a b => a ≤ b) run.ticks) :
    List.Chain' (fun a b => a ≤ b)
      (progressValues (downloadToFP srcUrl customId storagePath sr localFileLen run).events) ∧
    ∀ v ∈ progressValues (downloadToFP srcUrl customId storagePath sr localFileLen run).events,
      (downloadToFP srcUrl customId storagePath sr localFileLen run).startOffset ≤ v := by
  rw [progressValues_downloadToFP]
  constructor
  · exact (List.chain'_map _).mpr
      (hmono.imp fun a b hab => Nat.add_le_add_left hab _)
  · intro v hv
    obtain ⟨n, _, rfl⟩ := List.mem_map.mp hv
    exact Nat.le_add_right _ n

/-- Witness for claim C4 at the concrete engine run with ticks 0 then 4. -/
theorem claim_C4_witness :
    List.Chain' (fun a b => a ≤ b)
      (progressValues (downloadToFP "u" "c" "p" false none sampleEngineOk).events) :=
  (claim_C4 "u" "c" "p" false none sampleEngineOk (by simp [sampleEngineOk])).1

/-- Claim C5: with resume support enabled, a partial file of length len
present and the header probe reporting the resource resumable, the
transfer starts at offset len, keeps the partial file, and its first
progress report is len plus the first engine tick; when resume support is
disabled or the resource is not resumable, the stale partial file is
discarded and the transfer restarts at offset zero; without a partial
file the start offset is zero. -/
theorem claim_C5 (srcUrl customId storagePath : String) (sr : Bool) (len : Nat)
    (run : FileEngineRun) :
    (sr = true → run.acceptRanges = true →
      (downloadToFP srcUrl customId storagePath sr (some len) run).startOffset = len ∧
      (downloadToFP srcUrl customId storagePath sr (some len) run).discardedLocal = false ∧
      (progressValues (downloadToFP srcUrl customId storagePath sr (some len) run).events).head? =
        run.ticks.head?.map (fun n => len + n)) ∧
    ((sr = false ∨ run.acceptRanges = false) →
      (downloadToFP srcUrl customId storagePath sr (some len) run).startOffset = 0 ∧
      (downloadToFP srcUrl customId storagePath sr (some len) run).discardedLocal = true) ∧
    (downloadToFP srcUrl customId storagePath sr none run).startOffset = 0 := by
  refine ⟨?_, ?_, rfl⟩
  · intro h1 h2
    refine ⟨by simp [downloadToFP, resumeStart, h1, h2], by simp [downloadToFP, discardsLocal, h1, h2], ?_⟩
    rw [progressValues_downloadToFP]
    simp [resumeStart, h1, h2, List.head?_map]
  · intro h
    rcases h with h | h <;>
      simp [downloadToFP, resumeStart, discardsLocal, h]

/-- Witness for claim C5: a resumable run with a 5-byte partial file
starts at offset 5 and keeps the file. -/
theorem claim_C5_witness :
    (downloadToFP "u" "c" "p" true (some 5) sampleEngineOk).startOffset = 5 ∧
    (downloadToFP "u" "c" "p" true (some 5) sampleEngineOk).discardedLocal = false ∧
    (progressValues (downloadToFP "u" "c" "p" true (some 5) sampleEngineOk).events).head? =
      sampleEngineOk.ticks.head?.map (fun n => 5 + n) :=
  (claim_C5 "u" "c" "p" true 5 sampleEngineOk).1 rfl rfl

theorem batchRunAux_nil_of_lt (batchId : String) (outs : List (Option Error)) :
    ∀ st : BatchState, outs.length < st.remaining → batchRunAux batchId st outs = [] := by
  induction outs with
  | nil => intro st h; rfl
  | cons o rest ih =>
    intro st h
    have hlen : rest.length + 1 < st.remaining := by simpa using h
    have hne : ¬ (st.remaining - 1 = 0) := by omega
    simp only [batchRunAux, batchStep, hne, if_false, ite_false, if_neg hne]
    exact ih { remaining := st.remaining - 1, firstError := mergeFirst st.firstError o }
      (by simp; omega)

theorem foldl_mergeFirst_some (e : Error) (outs : List (Option Error)) :
    outs.foldl mergeFirst (some e) = some e := by
  induction outs with
  | nil => rfl
  | cons o rest ih => simpa [mergeFirst] using ih

theorem foldl_mergeFirst_eq_findSome (outs : List (Option Error)) :
    outs.foldl mergeFirst none = outs.findSome? id := by
  induction outs with
  | nil => rfl
  | cons o rest ih =>
    cases o with
    | none => simpa [mergeFirst, List.findSome?_cons] using ih
    | some e => simp [mergeFirst, List.findSome?_cons, foldl_mergeFirst_some]

theorem findSome?_id_none (outs : List (Option Error)) (h : ∀ o ∈ outs, o = none) :
    outs.findSome? id = none := by
  induction outs with
  | nil => rfl
  | cons o rest ih =>
    have ho : o = none := h o (by simp)
    subst ho
    simp only [List.findSome?_cons, id]
    exact ih fun o hmem => h o (by simp [hmem])

theorem batchRunAux_emit (batchId : String) (outs : List (Option Error)) :
    ∀ (r : Nat) (fe : Option Error), r = outs.length → outs ≠ [] →
      batchRunAux batchId { remaining := r, firstError := fe } outs =
        [batchEventOf batchId (outs.foldl mergeFirst fe)] := by
  induction outs with
  | nil => intro r fe h hne; exact absurd rfl hne
  | cons o rest ih =>
    intro r fe h hne
    by_cases hrest : rest = []
    · subst hrest
      have hr : r = 1 := by simpa using h
      subst hr
      simp [batchRunAux, batchStep, List.foldl_cons, List.foldl_nil]
    · have hlenr : rest.length ≠ 0 := fun hz => hrest (List.length_eq_zero.mp hz)
      have hr : r - 1 = rest.length := by simp at h; omega
      have hne0 : ¬ (r - 1 = 0) := by omega
      have step : batchRunAux batchId { remaining := r, firstError := fe } (o :: rest) =
          batchRunAux batchId { remaining := r - 1, firstError := mergeFirst fe o } rest := by
        simp only [batchRunAux, batchStep, if_neg hne0]
      rw [step, ih (r - 1) (mergeFirst fe o) hr hrest, List.foldl_cons]

/-- Claim C2: a batch emits no batch-level notification while any member
is still pending, and once every member has reached a terminal state it
emits exactly one, carrying batchId as its customId: a success
notification when every member succeeded, otherwise an error notification
carrying the first per-member error in arrival order, which later member
errors never replace. -/
theorem claim_C2 (pw : String → Bool) (batchId : String) (sr : Bool)
    (members : List BatchMember) (h : members ≠ []) :
    (∀ k, k < members.length →
      batchNotifications batchId members.length ((batchOutcomes pw sr members).take k) = []) ∧
    ∃ ev, (batchDownloadSyncRun pw batchId sr members).batchEvents = [ev] ∧
      ((∀ o ∈ batchOutcomes pw sr members, o = none) → ev = Event.successEv "" "" batchId) ∧
      (∀ e, (batchOutcomes pw sr members).findSome? id = some e →
        ev = Event.errorEv { e with customId := batchId }) := by
  have hlen : (batchOutcomes pw sr members).length = members.length := by
    simp [batchOutcomes, batchMemberRuns]
  have hne : batchOutcomes pw sr members ≠ [] := by
    intro hz
    have h0 : members.length = 0 := by rw [← hlen, hz]; rfl
    exact h (List.length_eq_zero.mp h0)
  constructor
  · intro k hk
    unfold batchNotifications
    apply batchRunAux_nil_of_lt
    simp only [List.length_take, hlen]
    omega
  · refine ⟨batchEventOf batchId ((batchOutcomes pw sr members).findSome? id), ?_, ?_, ?_⟩
    · rw [show (batchDownloadSyncRun pw batchId sr members).batchEvents =
          batchNotifications batchId members.length (batchOutcomes pw sr members) from rfl]
      unfold batchNotifications
      rw [batchRunAux_emit batchId (batchOutcomes pw sr members) members.length none
          hlen.symm hne, foldl_mergeFirst_eq_findSome]
    · intro hall
      rw [findSome?_id_none (batchOutcomes pw sr members) hall]
      rfl
    · intro e he
      rw [he]
      rfl

/-- Witness for claim C2: a one-member batch whose member succeeds yields
the single batch-level success notification for its batchId. -/
theorem claim_C2_witness :
    (batchDownloadSyncRun (fun _ => true) "batch1" false [sampleMember]).batchEvents =
      [Event.successEv "" "" "batch1"] := by
  obtain ⟨ev, hev, hsucc, _⟩ :=
    (claim_C2 (fun _ => true) "batch1" false [sampleMember] (by simp)).2
  rw [hev, hsucc (by decide)]

end Downloader
end network
end cocos2d
